import Mathlib

/-!
Verification development for the streamlit-materials repository.

Part 1 embeds `normalize_columns` from `app.py` over an explicit model of
pandas DataFrames: a cell is a string, a rational number, a boolean or a
missing value (NaN/NA), a column carries a name, a pandas dtype tag and a
list of cells, and a DataFrame is an ordered list of columns.

Part 2 models, from the specification's words, the components the
specification describes that are absent from the repository sources
(MaterialIndex, ResistanceModel, CompositeUModel, ProjectStore).
-/

namespace Materials

/-! ## Tabular data model -/

/-- A pandas cell value as `normalize_columns` distinguishes them: a string,
a (rational) number, a boolean, or a missing value (`NaN` / `pd.NA`). -/
inductive Cell where
  | str (s : String)
  | num (q : ℚ)
  | bool (b : Bool)
  | na
deriving DecidableEq

/-- The pandas dtype of a column; `normalize_columns` only branches on
whether the dtype is `object`, so the other dtypes are collapsed into tags. -/
inductive Dtype where
  | object
  | numeric
  | boolean
  | datetime
  | other
deriving DecidableEq

/-- One DataFrame column: its label, dtype and cells (top to bottom). -/
structure Column where
  name : String
  dtype : Dtype
  vals : List Cell
deriving DecidableEq

/-- A DataFrame: an ordered list of columns.  Duplicate labels are possible
(e.g. after `rename` maps two labels to the same stripped name). -/
structure DF where
  cols : List Column
deriving DecidableEq

/-- Number of rows: the length of the first column (all columns of a
well-formed frame have the same length). -/
def DF.nrows (df : DF) : Nat :=
  match df.cols with
  | [] => 0
  | c :: _ => c.vals.length

/-- `DataFrame.empty`: true when either axis has length 0. -/
def DF.isEmpty (df : DF) : Bool := df.cols.isEmpty || df.nrows == 0

/-! ## Python string helpers

`normalize_columns` calls Python's `str.strip()` and `str.lower()`.  They
are modelled structurally over the character list of the string (ASCII
whitespace and ASCII case, which covers every string the code compares
against). -/

/-- Python `str.strip()` whitespace set (ASCII part). -/
def isSpaceChar (c : Char) : Bool :=
  c == ' ' || c == '\t' || c == '\n' || c == '\r' || c == '\x0b' || c == '\x0c'

/-- Python `str.strip()`: drop leading and trailing whitespace. -/
def pyStrip (s : String) : String :=
  String.mk (((s.data.dropWhile isSpaceChar).reverse.dropWhile isSpaceChar).reverse)

/-- Lowercase one ASCII character. -/
def lowerChar (c : Char) : Char :=
  if 'A' ≤ c && c ≤ 'Z' then Char.ofNat (c.toNat + 32) else c

/-- Python `str.lower()` (ASCII range). -/
def pyLower (s : String) : String :=
  String.mk (s.data.map lowerChar)

/-! ## Numeric coercion (`pd.to_numeric(..., errors='coerce')`) -/

/-- Value of a decimal digit character. -/
def digitVal (c : Char) : Option Nat :=
  if c.isDigit then some (c.toNat - 48) else none

/-- Read a run of decimal digits into an accumulator; fails on any
non-digit. -/
def parseDigitsAux : List Char → Nat → Option Nat
  | [], acc => some acc
  | c :: cs, acc =>
    match digitVal c with
    | some d => parseDigitsAux cs (acc * 10 + d)
    | none => none

/-- Parse an unsigned decimal numeral, optionally with a fractional part
(models the number strings `pd.to_numeric` accepts). -/
def parseNumCore (cs : List Char) : Option ℚ :=
  match cs.splitOn '.' with
  | [ip] =>
    if ip.isEmpty then none
    else (parseDigitsAux ip 0).map (fun n => (n : ℚ))
  | [ip, fp] =>
    if ip.isEmpty && fp.isEmpty then none
    else
      match parseDigitsAux ip 0, parseDigitsAux fp 0 with
      | some i, some f => some ((i : ℚ) + (f : ℚ) / ((10 : ℚ) ^ fp.length))
      | _, _ => none
  | _ => none

/-- Parse a signed decimal numeral, as `pd.to_numeric` does on a string
cell; `none` models coercion failure (the cell becomes `NaN`). -/
def parseNum (s : String) : Option ℚ :=
  match s.toList with
  | [] => none
  | '-' :: rest => (parseNumCore rest).map (fun q => -q)
  | '+' :: rest => parseNumCore rest
  | cs => parseNumCore cs

/-- `pd.to_numeric(cell, errors='coerce')` on one cell: numbers pass
through, booleans become 1/0, strings are parsed (failure gives `NaN`),
missing stays missing. -/
def toNumericCell (c : Cell) : Cell :=
  match c with
  | Cell.str s =>
    match parseNum s with
    | some q => Cell.num q
    | none => Cell.na
  | Cell.num q => Cell.num q
  | Cell.bool b => Cell.num (if b then 1 else 0)
  | Cell.na => Cell.na

/-! ## The per-column pipeline of `normalize_columns` (app.py lines 54-88) -/

/-- Line 59: `df[col].replace('', pd.NA)` on one cell. -/
def replaceEmptyCell (c : Cell) : Cell :=
  if c = Cell.str ("") then Cell.na else c

/-- Line 62: `df[col].dropna().unique()` — the distinct non-missing cells. -/
def uniqueNonNull (vals : List Cell) : List Cell :=
  (vals.filter (fun c => !(c == Cell.na))).dedup

/-- Lines 67-70: a unique value counts towards `bool_values` when it is a
string whose lowercase form is one of the six boolean-like tokens. -/
def isBoolStr (c : Cell) : Bool :=
  match c with
  | Cell.str s => (["true", "false", "1", "0", "yes", "no"]).contains (pyLower s)
  | _ => false

/-- Lines 62-72: the boolean branch triggers when the column has at most
two distinct non-null values and at least two of them are boolean-like
strings. -/
def boolBranchCond (vals : List Cell) : Bool :=
  let uniq := uniqueNonNull vals
  decide (uniq.length ≤ 2) && decide (2 ≤ (uniq.filter isBoolStr).length)

/-- The exact keys of the `map` dictionary on lines 74-77 that map to
`True`. -/
def trueTokens : List String := ["true", "True", "1", "yes", "Yes"]

/-- The exact keys of the `map` dictionary on lines 74-77 that map to
`False`. -/
def falseTokens : List String := ["false", "False", "0", "no", "No"]

/-- Lines 74-77: `df[col].map({...}).fillna(df[col])` on one cell — cells
that hit a dictionary key (exact spelling) become booleans, every other
cell is restored unchanged by the `fillna`. -/
def boolMapCell (c : Cell) : Cell :=
  match c with
  | Cell.str s =>
    if trueTokens.contains s then Cell.bool true
    else if falseTokens.contains s then Cell.bool false
    else c
  | _ => c

/-- Lines 56-84 for a single `object` column: replace empty strings with
NA, take the boolean branch when `boolBranchCond` holds (then `continue`),
otherwise attempt numeric coercion and keep it only when not every coerced
cell is `NaN`. -/
def processColumn (c : Column) : Column :=
  let v1 := c.vals.map replaceEmptyCell
  if boolBranchCond v1 then
    { c with vals := v1.map boolMapCell }
  else
    let nums := v1.map toNumericCell
    if nums.all (fun x => x == Cell.na) then { c with vals := v1 }
    else { c with vals := nums }

/-- How many columns of the frame carry a given label. -/
def countName (cols : List Column) (n : String) : Nat :=
  (cols.filter (fun c => c.name == n)).length

/-- The `for col in df.columns` loop (lines 54-88).  When a label is
duplicated, `df[col]` selects a sub-DataFrame and `df[col].dtype` raises
`AttributeError`, which the inner `except` swallows before any mutation, so
such columns pass through unchanged; non-`object` columns also pass through
unchanged; unique `object` columns get `processColumn`. -/
def processDF (cols : List Column) : List Column :=
  cols.map (fun c =>
    if 2 ≤ countName cols c.name then c
    else if c.dtype = Dtype.object then processColumn c
    else c)

/-- Lines 50-51: `norm = {c: str(c).strip() for c in df.columns}` followed
by `df.rename(columns=norm)` — every label is whitespace-trimmed (and
nothing else). -/
def renameStrip (df : DF) : DF :=
  DF.mk (df.cols.map (fun c => { c with name := pyStrip c.name }))

/-- `normalize_columns` (app.py lines 43-93).  `None` and empty frames
short-circuit to a fresh empty frame (lines 44-45); otherwise labels are
stripped and each column is processed.  The function is total: the embedded
operations cannot fail, matching the blanket `try/except` structure whose
outer handler (line 93) would return the current `df`, not an empty
frame. -/
def normalize_columns (odf : Option DF) : DF :=
  match odf with
  | none => DF.mk []
  | some df => if df.isEmpty then DF.mk [] else DF.mk (processDF (renameStrip df).cols)

/-! ## MaterialIndex (spec §4.2)

The repository sources contain only the CSV editor; the MaterialIndex,
ResistanceModel, CompositeUModel and ProjectStore components of the
specification have no implementation under the sources, so they are
modelled from the specification's words. -/

/-- Modelled from the spec: a resolved material record of the canonical
schema (§3); `evidence` and `comment` are free-text and irrelevant to
lookup, so the record keeps the fields lookup reads. -/
structure MaterialRecord where
  category : String
  name : String
  lambda : ℚ
deriving DecidableEq

/-- Modelled from the spec: the primary filter of `lookup` — exact
`category` match (only when the queried category is non-empty) and exact
`name` match. -/
def fullMatch (cat nm : String) (r : MaterialRecord) : Bool :=
  (cat == ("") || r.category == cat) && r.name == nm

/-- Modelled from the spec: the fallback filter of `lookup` — exact `name`
match with the category ignored. -/
def nameMatch (nm : String) (r : MaterialRecord) : Bool :=
  r.name == nm

/-- Modelled from the spec (§4.2): `lookup(category, name) -> lambda |
NotFound` (`none` is `NotFound`).  Filter by category+name, first match in
table order wins; on no match retry name-only; on no match report
`NotFound`.  It is a pure function, so repeated queries agree. -/
def lookup (tbl : List MaterialRecord) (cat nm : String) : Option ℚ :=
  match tbl.find? (fullMatch cat nm) with
  | some r => some r.lambda
  | none =>
    match tbl.find? (nameMatch nm) with
    | some r => some r.lambda
    | none => none

/-! ## ResistanceModel (spec §4.3) -/

/-- Modelled from the spec: `layerResistance(thickness_mm, lambda)`.  A
`NotFound` or non-positive conductivity contributes zero resistance;
otherwise the thickness is clamped below at 0, converted to meters, and
divided by the conductivity. -/
def layerResistance (thickness_mm : ℚ) (lambdaOpt : Option ℚ) : ℚ :=
  match lambdaOpt with
  | none => 0
  | some l => if l ≤ 0 then 0 else (max thickness_mm 0) / 1000 / l

/-- Modelled from the spec (§3): a layer of the stack.  The bridge
reference is optional; an empty bridge material name means "unset" and
falls back to the normal reference. -/
structure LayerSpec where
  order : Int
  thickness_mm : ℚ
  cat_normal : String
  mat_normal : String
  cat_bridge : String
  mat_bridge : String
deriving DecidableEq

/-- Modelled from the spec (§9): `effectiveMaterial` — the bridge path uses
the bridge reference when set, and falls back to the layer's normal
reference when unset. -/
def effectiveRef (l : LayerSpec) (useBridge : Bool) : String × String :=
  if useBridge && !(l.mat_bridge == ("")) then (l.cat_bridge, l.mat_bridge)
  else (l.cat_normal, l.mat_normal)

/-- Modelled from the spec: `sumResistance` — sum of `layerResistance` over
the layers, resolving each layer's effective material reference through the
index (summation is invariant under the stack ordering by `order`). -/
def sumResistance (tbl : List MaterialRecord) (layers : List LayerSpec)
    (useBridge : Bool) : ℚ :=
  (layers.map (fun l =>
    layerResistance l.thickness_mm
      (lookup tbl (effectiveRef l useBridge).1 (effectiveRef l useBridge).2))).sum

/-! ## CompositeUModel (spec §4.4) -/

/-- Modelled from the spec (§3): a project — surface resistances, the
thermal-bridge area fraction, and the ordered layer stack. -/
structure Project where
  Rsi : ℚ
  Rse : ℚ
  thermal_bridge_ratio : ℚ
  layers : List LayerSpec
deriving DecidableEq

/-- Modelled from the spec: the small positive floor `ε` of
`uFromResistance` (the spec's example value 1e-9). -/
def epsFloor : ℚ := 1 / 1000000000

/-- Modelled from the spec: `uFromResistance(Rsi, R_sum, Rse) = 1 / max(ε,
Rsi + R_sum + Rse)`. -/
def uFromResistance (Rsi Rsum Rse : ℚ) : ℚ :=
  1 / max epsFloor (Rsi + Rsum + Rse)

/-- Modelled from the spec: clamp the thermal-bridge ratio to `[0,1]`. -/
def clamp01 (a : ℚ) : ℚ := min 1 (max 0 a)

/-- Modelled from the spec (§3): the pure output of `compute`. -/
structure ComputationResult where
  R_sum_normal : ℚ
  R_sum_bridge : ℚ
  U_normal : ℚ
  U_bridge : ℚ
  U_total : ℚ
deriving DecidableEq

/-- Modelled from the spec (§4.4): `compute(project, materialIndex)` —
resistances for both paths, their U-values, and the area-weighted blend
`U_total = (1-a)*U_normal + a*U_bridge` with `a` the clamped bridge
ratio. -/
def compute (p : Project) (tbl : List MaterialRecord) : ComputationResult :=
  let rn := sumResistance tbl p.layers false
  let rb := sumResistance tbl p.layers true
  let un := uFromResistance p.Rsi rn p.Rse
  let ub := uFromResistance p.Rsi rb p.Rse
  let a := clamp01 p.thermal_bridge_ratio
  ComputationResult.mk rn rb un ub ((1 - a) * un + a * ub)

/-! ## ProjectStore (spec §4.5, §6) -/

/-- Modelled from the spec (§6): a JSON-like structured document value. -/
inductive JVal where
  | num (q : ℚ)
  | str (s : String)
  | arr (xs : List JVal)
  | obj (fields : List (String × JVal))

/-- First field of an object with the given key, as JSON object lookup. -/
def getField (fields : List (String × JVal)) (k : String) : Option JVal :=
  (fields.find? (fun f => f.1 == k)).map (fun f => f.2)

/-- Read a numeric document value. -/
def asNum : JVal → Option ℚ
  | JVal.num q => some q
  | _ => none

/-- Read a string document value. -/
def asStr : JVal → Option String
  | JVal.str s => some s
  | _ => none

/-- Read an integer document value; a non-integral or non-numeric value is
rejected (the spec's "non-numeric `order`" strictness). -/
def asInt : JVal → Option Int
  | JVal.num q => if q.den = 1 then some q.num else none
  | _ => none

/-- Read an array document value. -/
def asArr : JVal → Option (List JVal)
  | JVal.arr xs => some xs
  | _ => none

/-- Modelled from the spec (§4.5): serialize one layer as a record with
fields `order, thickness_mm, cat_normal, mat_normal, cat_bridge,
mat_bridge`. -/
def serializeLayer (l : LayerSpec) : JVal :=
  JVal.obj [("order", JVal.num (l.order : ℚ)),
            ("thickness_mm", JVal.num l.thickness_mm),
            ("cat_normal", JVal.str l.cat_normal),
            ("mat_normal", JVal.str l.mat_normal),
            ("cat_bridge", JVal.str l.cat_bridge),
            ("mat_bridge", JVal.str l.mat_bridge)]

/-- Modelled from the spec (§4.5, §6): serialize a project to the document
with top-level fields `Rsi`, `Rse`, `thermalBridgeRatio` and `layers`. -/
def serialize (p : Project) : JVal :=
  JVal.obj [("Rsi", JVal.num p.Rsi),
            ("Rse", JVal.num p.Rse),
            ("thermalBridgeRatio", JVal.num p.thermal_bridge_ratio),
            ("layers", JVal.arr (p.layers.map serializeLayer))]

/-- The error token of the spec's `MalformedProjectDocument` report. -/
def malformedMsg : String := "MalformedProjectDocument"

/-- Modelled from the spec (§4.5): parse one layer record strictly —
missing fields, wrongly-typed fields or a non-integral `order` are
`MalformedProjectDocument`. -/
def deserializeLayer (v : JVal) : Except String LayerSpec :=
  match v with
  | JVal.obj fs =>
    match getField fs ("order") >>= asInt,
          getField fs ("thickness_mm") >>= asNum,
          getField fs ("cat_normal") >>= asStr,
          getField fs ("mat_normal") >>= asStr,
          getField fs ("cat_bridge") >>= asStr,
          getField fs ("mat_bridge") >>= asStr with
    | some o, some t, some cn, some mn, some cb, some mb =>
      Except.ok (LayerSpec.mk o t cn mn cb mb)
    | _, _, _, _, _, _ => Except.error malformedMsg
  | _ => Except.error malformedMsg

/-- Parse every layer of the `layers` array, failing on the first malformed
record (no partially-populated result). -/
def deserializeLayers : List JVal → Except String (List LayerSpec)
  | [] => Except.ok []
  | v :: vs =>
    match deserializeLayer v, deserializeLayers vs with
    | Except.ok l, Except.ok ls => Except.ok (l :: ls)
    | Except.error e, _ => Except.error e
    | _, Except.error e => Except.error e

/-- Modelled from the spec (§4.5): `deserialize(document) -> Project`,
strict inverse of `serialize`; on structurally invalid input it reports
`MalformedProjectDocument` instead of repairing. -/
def deserialize (v : JVal) : Except String Project :=
  match v with
  | JVal.obj fs =>
    match getField fs ("Rsi") >>= asNum,
          getField fs ("Rse") >>= asNum,
          getField fs ("thermalBridgeRatio") >>= asNum,
          getField fs ("layers") >>= asArr with
    | some rsi, some rse, some a, some lvs =>
      match deserializeLayers lvs with
      | Except.ok ls => Except.ok (Project.mk rsi rse a ls)
      | Except.error e => Except.error e
    | _, _, _, _ => Except.error malformedMsg
  | _ => Except.error malformedMsg

/-! ## Concrete frames and tables used by the theorems -/

/-- A frame whose `lambda` cell "abc" fails numeric coercion. -/
def dfParseFail : DF :=
  DF.mk [Column.mk ("name") Dtype.object [Cell.str ("x")],
         Column.mk ("lambda") Dtype.object [Cell.str ("abc")]]

/-- A frame with one row whose `name` is empty and whose `lambda` is
non-numeric. -/
def dfInvalidRow : DF :=
  DF.mk [Column.mk ("name") Dtype.object [Cell.str ("")],
         Column.mk ("lambda") Dtype.object [Cell.str ("abc")]]

/-- An object column of an empty string and a non-numeric string. -/
def dfEmptyStrCol : DF :=
  DF.mk [Column.mk ("c") Dtype.object [Cell.str (""), Cell.str ("x")]]

/-- An object column holding only the strings "TRUE" and "FALSE". -/
def dfCapsBool : DF :=
  DF.mk [Column.mk ("b") Dtype.object [Cell.str ("TRUE"), Cell.str ("FALSE")]]

/-- A material table with two records for the same `(category, name)` with
different conductivities, plus one unrelated record. -/
def tblDup : List MaterialRecord :=
  [MaterialRecord.mk ("catA") ("dup") (1 / 10),
   MaterialRecord.mk ("catA") ("dup") (2 / 10),
   MaterialRecord.mk ("catB") ("wood") (3 / 10)]

/-- A project whose bridge ratio is 0 (all area on the normal path). -/
def projRatioZero : Project := Project.mk (11 / 100) (4 / 100) 0 []

/-- A project whose bridge ratio is 1 (all area on the bridge path). -/
def projRatioOne : Project := Project.mk (11 / 100) (4 / 100) 1 []

end Materials

namespace Materials

/-! ## Helper lemmas -/

/-- `find?` returns the element at the first index satisfying the
predicate. -/
theorem find?_eq_get_of_min {α : Type} (p : α → Bool) (l : List α) (i : Nat)
    (hi : i < l.length) (hp : p (l.get ⟨i, hi⟩) = true)
    (hmin : ∀ j (hj : j < l.length), j < i → p (l.get ⟨j, hj⟩) = false) :
    l.find? p = some (l.get ⟨i, hi⟩) := by
  induction l generalizing i with
  | nil => simp at hi
  | cons a t ih =>
    cases i with
    | zero =>
      exact List.find?_cons_of_pos _ hp
    | succ n =>
      have ha : p a = false := hmin 0 (by simp) (Nat.succ_pos n)
      rw [List.find?_cons_of_neg _ (by simp [ha])]
      exact ih n (Nat.lt_of_succ_lt_succ hi) hp
        (fun j hj hji => hmin (j + 1) (Nat.succ_lt_succ hj) (Nat.succ_lt_succ hji))

/-- `processColumn` never changes a column's label. -/
theorem processColumn_name (c : Column) : (processColumn c).name = c.name := by
  simp only [processColumn]
  split
  · rfl
  · split
    · rfl
    · rfl

/-- `processColumn` never changes the number of cells of a column. -/
theorem processColumn_vals_length (c : Column) :
    (processColumn c).vals.length = c.vals.length := by
  simp only [processColumn]
  split
  · simp
  · split
    · simp
    · simp

/-- The column loop never changes the number of columns. -/
theorem processDF_length (cols : List Column) :
    (processDF cols).length = cols.length := by
  simp [processDF]

/-- The column loop never changes the number of rows. -/
theorem processDF_nrows (cols : List Column) :
    (DF.mk (processDF cols)).nrows = (DF.mk cols).nrows := by
  cases cols with
  | nil => rfl
  | cons c t =>
    simp only [processDF, DF.nrows, List.map]
    split
    · rfl
    · split
      · simp [processColumn_vals_length]
      · rfl

/-- Renaming never changes the number of columns. -/
theorem renameStrip_length (df : DF) :
    (renameStrip df).cols.length = df.cols.length := by
  simp [renameStrip]

/-- Renaming never changes the number of rows. -/
theorem renameStrip_nrows (df : DF) : (renameStrip df).nrows = df.nrows := by
  cases h : df.cols with
  | nil => simp [renameStrip, DF.nrows, h]
  | cons c t => simp [renameStrip, DF.nrows, h]

/-! ## Claims about `normalize_columns` -/

/-- C10: for an input that is `None` or an empty table, `normalize_columns`
returns a fresh empty table with no columns; being a total function, it
does not raise. -/
theorem normalize_columns_empty_input (odf : Option DF)
    (h : odf = none ∨ ∃ df, odf = some df ∧ df.isEmpty = true) :
    normalize_columns odf = DF.mk [] := by
  rcases h with h | ⟨df, rfl, hdf⟩
  · rw [h]; rfl
  · simp [normalize_columns, hdf]

/-- Witness for C10: both a `None` input and a non-`None` frame with a
column but no rows give the empty frame. -/
theorem normalize_columns_empty_input_witness :
    normalize_columns none = DF.mk [] ∧
    normalize_columns (some (DF.mk [Column.mk ("a") Dtype.object []])) = DF.mk [] := by
  constructor
  · exact normalize_columns_empty_input none (Or.inl rfl)
  · exact normalize_columns_empty_input _ (Or.inr ⟨_, rfl, by decide⟩)

/-- C2 (divergence, evaluated at the failing input): column-name
normalization only strips whitespace (`str(c).strip()`, app.py line 50) and
never lowercases, although the code's own comment on line 49 announces
lowercase-and-trim: the label "  NAME  " resolves to "NAME", not "name". -/
theorem normalize_columns_strips_but_keeps_case :
    (List.map (fun c => c.name)
      (normalize_columns (some (DF.mk [Column.mk ("  NAME  ") Dtype.object
        [Cell.str ("x")]]))).cols) = ["NAME"] ∧
    ("NAME" : String) ≠ ("name" : String) := by decide

/-- C1 is refuted on the code: on a parsing failure `normalize_columns`
returns the data processed so far, not an empty table.  In `dfParseFail`
the `lambda` cell "abc" fails numeric coercion, yet the result is the
unchanged, non-empty frame (matching the outer handler on app.py line 93,
which returns `df` rather than an empty frame). -/
theorem normalize_columns_failure_keeps_data :
    parseNum ("abc") = none ∧
    normalize_columns (some dfParseFail) = dfParseFail ∧
    dfParseFail ≠ DF.mk [] := by decide

/-- C1 amended: `normalize_columns` never raises (it is total) and on
decoding or parsing failures it returns the data processed so far — for a
non-empty input the result keeps the column and row counts and is never the
empty table. -/
theorem normalize_columns_total_never_empties (df : DF) (h : df.isEmpty = false) :
    (normalize_columns (some df)).cols.length = df.cols.length ∧
    (normalize_columns (some df)).nrows = df.nrows ∧
    normalize_columns (some df) ≠ DF.mk [] := by
  have hlen : (normalize_columns (some df)).cols.length = df.cols.length := by
    simp [normalize_columns, h, processDF_length, renameStrip_length]
  have hnr : (normalize_columns (some df)).nrows = df.nrows := by
    simp only [normalize_columns, h, Bool.false_eq_true, if_false]
    calc (DF.mk (processDF (renameStrip df).cols)).nrows
        = (DF.mk (renameStrip df).cols).nrows := processDF_nrows _
      _ = (renameStrip df).nrows := rfl
      _ = df.nrows := renameStrip_nrows df
  refine ⟨hlen, hnr, fun heq => ?_⟩
  have hcols : df.cols.length = 0 := by
    rw [← hlen, heq]
    rfl
  have : df.isEmpty = true := by
    simp [DF.isEmpty, List.isEmpty_iff, List.length_eq_zero.mp hcols]
  rw [this] at h
  exact absurd h (by simp)

/-- Witness for the amended C1 at a concrete non-empty frame with a failing
`lambda` cell. -/
theorem normalize_columns_total_never_empties_witness :
    (normalize_columns (some dfParseFail)).cols.length = 2 ∧
    normalize_columns (some dfParseFail) ≠ DF.mk [] := by
  have h := normalize_columns_total_never_empties dfParseFail (by decide)
  exact ⟨by rw [h.1]; rfl, h.2.2⟩

/-- C3 is refuted on the code: `normalize_columns` has no `name`+`lambda`
non-null filter and drops no rows.  The row of `dfInvalidRow` has an empty
`name` and a non-numeric `lambda`, yet it survives: the output still has
one row (the empty name became NA and the `lambda` string is kept, since
the whole column failed coercion). -/
theorem normalize_columns_keeps_invalid_row :
    (normalize_columns (some dfInvalidRow)).nrows = 1 ∧
    normalize_columns (some dfInvalidRow) =
      DF.mk [Column.mk ("name") Dtype.object [Cell.na],
             Column.mk ("lambda") Dtype.object [Cell.str ("abc")]] ∧
    parseNum ("") = none := by decide

/-- C3 amended: `lambda` values that fail coercion become absent only when
some value of the column parses; in every case `normalize_columns` drops no
rows — the row count of a non-empty input is preserved (rows with empty
`name` or non-numeric `lambda` stay in the table). -/
theorem normalize_columns_preserves_nrows (df : DF) :
    (normalize_columns (some df)).nrows = if df.isEmpty then 0 else df.nrows := by
  cases h : df.isEmpty with
  | true => simp [normalize_columns, h, DF.nrows]
  | false =>
    simp only [normalize_columns, h, Bool.false_eq_true, if_false]
    calc (DF.mk (processDF (renameStrip df).cols)).nrows
        = (DF.mk (renameStrip df).cols).nrows := processDF_nrows _
      _ = (renameStrip df).nrows := rfl
      _ = df.nrows := renameStrip_nrows df

/-- C8 is refuted on the code: in `dfEmptyStrCol` every value fails numeric
coercion (the empty string and "x" both coerce to `NaN`), yet the column
does not keep its original string values — line 59 already replaced the
empty string by NA before the coercion attempt. -/
theorem normalize_columns_unparsed_column_changed :
    toNumericCell (replaceEmptyCell (Cell.str (""))) = Cell.na ∧
    toNumericCell (Cell.str ("x")) = Cell.na ∧
    normalize_columns (some dfEmptyStrCol) =
      DF.mk [Column.mk ("c") Dtype.object [Cell.na, Cell.str ("x")]] ∧
    normalize_columns (some dfEmptyStrCol) ≠ dfEmptyStrCol := by decide

/-- C8 amended: for an object column not taken by the boolean branch, after
empty strings are replaced by NA the column is replaced by its numeric
coercion exactly when at least one post-replacement value coerces to a
number; when none does, the column keeps its post-replacement values, and
when some does, every non-coercing value becomes `NaN` (the coercion maps
it to `Cell.na`). -/
theorem processColumn_numeric_spec (nm : String) (dt : Dtype) (vs : List Cell)
    (hb : boolBranchCond (vs.map replaceEmptyCell) = false) :
    (processColumn (Column.mk nm dt vs) =
      Column.mk nm dt
        (if ((vs.map replaceEmptyCell).map toNumericCell).all (fun x => x == Cell.na)
         then vs.map replaceEmptyCell
         else (vs.map replaceEmptyCell).map toNumericCell)) ∧
    ((((vs.map replaceEmptyCell).map toNumericCell).all (fun x => x == Cell.na)) = false ↔
      ∃ x ∈ vs.map replaceEmptyCell, toNumericCell x ≠ Cell.na) := by
  constructor
  · simp only [processColumn, hb, Bool.false_eq_true, if_false]
    split
    · rfl
    · rfl
  · simp [List.all_eq_true, beq_eq_false_iff_ne]

/-- Witness for the amended C8: one cell of the column parses, so the
column is coerced and the non-parsing cell becomes `NaN`. -/
theorem processColumn_numeric_spec_witness :
    processColumn (Column.mk ("c") Dtype.object [Cell.str ("12"), Cell.str ("x")]) =
      Column.mk ("c") Dtype.object [Cell.num 12, Cell.na] ∧
    ∃ x ∈ [Cell.str ("12"), Cell.str ("x")].map replaceEmptyCell,
      toNumericCell x ≠ Cell.na := by
  have h := processColumn_numeric_spec ("c") Dtype.object
    [Cell.str ("12"), Cell.str ("x")] (by decide)
  exact ⟨h.1.trans (by decide), h.2.mp (by decide)⟩

/-- C9 is refuted on the code: the column of `dfCapsBool` holds exactly two
distinct values, both strings whose lowercase form is boolean-like, so the
boolean branch is taken — but the `map` dictionary has no key "TRUE" or
"FALSE", the `fillna` restores the strings, and the column does not become
boolean values. -/
theorem normalize_columns_caps_bool_unchanged :
    isBoolStr (Cell.str ("TRUE")) = true ∧
    isBoolStr (Cell.str ("FALSE")) = true ∧
    normalize_columns (some dfCapsBool) = dfCapsBool := by decide

/-- C9 amended: under the claim's trigger condition the boolean branch is
taken and numeric coercion is skipped, but the conversion is by the
fixed-spelling dictionary of lines 74-77: exactly its ten spellings become
booleans ("1" becomes `True`, "0" becomes `False`), and any other value —
for example "TRUE" — is left unchanged by the `fillna`. -/
theorem processColumn_bool_branch_spec (nm : String) (dt : Dtype) (vs : List Cell)
    (hb : boolBranchCond (vs.map replaceEmptyCell) = true) :
    processColumn (Column.mk nm dt vs) =
      Column.mk nm dt ((vs.map replaceEmptyCell).map boolMapCell) ∧
    boolMapCell (Cell.str ("1")) = Cell.bool true ∧
    boolMapCell (Cell.str ("0")) = Cell.bool false ∧
    (∀ s : String, trueTokens.contains s = false → falseTokens.contains s = false →
      boolMapCell (Cell.str s) = Cell.str s) := by
  refine ⟨?_, by decide, by decide, ?_⟩
  · simp only [processColumn, hb, if_true]
  · intro s h1 h2
    have h1' : s ∉ trueTokens := by simpa using h1
    have h2' : s ∉ falseTokens := by simpa using h2
    simp [boolMapCell, h1', h2']

/-- Witness for the amended C9: a column holding only "1" and "0" takes the
boolean branch and becomes booleans, while "TRUE" would pass through. -/
theorem processColumn_bool_branch_spec_witness :
    boolBranchCond ([Cell.str ("1"), Cell.str ("0")].map replaceEmptyCell) = true ∧
    processColumn (Column.mk ("c") Dtype.object [Cell.str ("1"), Cell.str ("0")]) =
      Column.mk ("c") Dtype.object [Cell.bool true, Cell.bool false] ∧
    boolMapCell (Cell.str ("TRUE")) = Cell.str ("TRUE") := by
  have h := processColumn_bool_branch_spec ("c") Dtype.object
    [Cell.str ("1"), Cell.str ("0")] (by decide)
  exact ⟨by decide, h.1.trans (by decide), h.2.2.2 ("TRUE") (by decide) (by decide)⟩

/-! ## Claims about the spec-modelled computation core -/

/-- C4: for positive conductivity the layer resistance is the negatively
clamped thickness, converted to meters, divided by the conductivity — so
exactly `(thickness_mm/1000)/lambda` for non-negative thickness and 0 for
negative thickness; for a `NotFound` (`none`) or non-positive conductivity
it is exactly 0. -/
theorem layerResistance_spec (t l : ℚ) :
    (0 < l → layerResistance t (some l) = (max t 0) / 1000 / l) ∧
    (0 < l → 0 ≤ t → layerResistance t (some l) = t / 1000 / l) ∧
    (0 < l → t < 0 → layerResistance t (some l) = 0) ∧
    layerResistance t none = 0 ∧
    (l ≤ 0 → layerResistance t (some l) = 0) := by
  refine ⟨?_, ?_, ?_, rfl, ?_⟩
  · intro hl
    simp [layerResistance, not_le.mpr hl]
  · intro hl ht
    simp [layerResistance, not_le.mpr hl, max_eq_left ht]
  · intro hl ht
    simp [layerResistance, not_le.mpr hl, max_eq_right ht.le]
  · intro hl
    simp [layerResistance, hl]

/-- Witness for C4: a 50 mm layer of conductivity 2 gives (50/1000)/2 =
1/40; a missing, non-positive, or negative-thickness case gives 0. -/
theorem layerResistance_spec_witness :
    layerResistance 50 (some 2) = 1 / 40 ∧
    layerResistance 50 none = 0 ∧
    layerResistance 50 (some (-1)) = 0 ∧
    layerResistance (-5) (some 2) = 0 := by
  refine ⟨?_, (layerResistance_spec 50 2).2.2.2.1, ?_, ?_⟩
  · rw [(layerResistance_spec 50 2).2.1 (by norm_num) (by norm_num)]
    norm_num
  · exact (layerResistance_spec 50 (-1)).2.2.2.2 (by norm_num)
  · exact (layerResistance_spec (-5) 2).2.2.1 (by norm_num) (by norm_num)

/-- C5: with `a` the bridge ratio clamped to `[0,1]`, the computed
`U_total` is `(1-a)*U_normal + a*U_bridge`; when the ratio clamps to 0 the
total equals `U_normal` exactly, and when it clamps to 1 it equals
`U_bridge` exactly. -/
theorem compute_blend (p : Project) (tbl : List MaterialRecord) :
    (compute p tbl).U_total =
      (1 - clamp01 p.thermal_bridge_ratio) * (compute p tbl).U_normal +
        clamp01 p.thermal_bridge_ratio * (compute p tbl).U_bridge ∧
    (p.thermal_bridge_ratio ≤ 0 → (compute p tbl).U_total = (compute p tbl).U_normal) ∧
    (1 ≤ p.thermal_bridge_ratio → (compute p tbl).U_total = (compute p tbl).U_bridge) := by
  refine ⟨rfl, ?_, ?_⟩
  · intro ha
    have hc : clamp01 p.thermal_bridge_ratio = 0 := by
      simp [clamp01, max_eq_left ha]
    simp [compute, hc]
  · intro ha
    have hc : clamp01 p.thermal_bridge_ratio = 1 := by
      simp [clamp01, max_eq_right (le_trans zero_le_one ha), min_eq_left ha]
    simp [compute, hc]

/-- Witness for C5 at ratio 0 and at ratio 1. -/
theorem compute_blend_witness :
    (compute projRatioZero []).U_total = (compute projRatioZero []).U_normal ∧
    (compute projRatioOne []).U_total = (compute projRatioOne []).U_bridge := by
  exact ⟨(compute_blend projRatioZero []).2.1 (by norm_num [projRatioZero]),
         (compute_blend projRatioOne []).2.2 (by norm_num [projRatioOne])⟩

/-- C6: `lookup` first filters by exact category (only when the queried
category is non-empty) and exact name, and the first matching row in table
order wins; when no row fully matches it retries name-only, again first
match wins; when no row has the name it reports `NotFound` (`none`).  Being
a pure function, repeated queries return identical results. -/
theorem lookup_first_match_spec (tbl : List MaterialRecord) (cat nm : String) :
    (∀ i (hi : i < tbl.length), fullMatch cat nm (tbl.get ⟨i, hi⟩) = true →
      (∀ j (hj : j < tbl.length), j < i → fullMatch cat nm (tbl.get ⟨j, hj⟩) = false) →
      lookup tbl cat nm = some ((tbl.get ⟨i, hi⟩).lambda)) ∧
    ((∀ r ∈ tbl, fullMatch cat nm r = false) →
      ∀ i (hi : i < tbl.length), nameMatch nm (tbl.get ⟨i, hi⟩) = true →
      (∀ j (hj : j < tbl.length), j < i → nameMatch nm (tbl.get ⟨j, hj⟩) = false) →
      lookup tbl cat nm = some ((tbl.get ⟨i, hi⟩).lambda)) ∧
    ((∀ r ∈ tbl, nameMatch nm r = false) → lookup tbl cat nm = none) := by
  refine ⟨?_, ?_, ?_⟩
  · intro i hi hp hmin
    have hf := find?_eq_get_of_min (fullMatch cat nm) tbl i hi hp hmin
    simp [lookup, hf]
  · intro hfull i hi hp hmin
    have h1 : tbl.find? (fullMatch cat nm) = none :=
      List.find?_eq_none.mpr (fun x hx => by simp [hfull x hx])
    have hf := find?_eq_get_of_min (nameMatch nm) tbl i hi hp hmin
    simp [lookup, h1, hf]
  · intro hname
    have h2 : tbl.find? (nameMatch nm) = none :=
      List.find?_eq_none.mpr (fun x hx => by simp [hname x hx])
    have h1 : tbl.find? (fullMatch cat nm) = none := by
      refine List.find?_eq_none.mpr (fun x hx => ?_)
      have hn := hname x hx
      simp only [nameMatch] at hn
      simp [fullMatch, hn]
    simp [lookup, h1, h2]

/-- Witness for C6 on `tblDup`: of two duplicate `(catA, dup)` rows the
first wins; a query with an unknown category falls back to the name-only
match; an unknown name reports `NotFound`. -/
theorem lookup_first_match_spec_witness :
    lookup tblDup ("catA") ("dup") = some (1 / 10) ∧
    lookup tblDup ("nosuch") ("wood") = some (3 / 10) ∧
    lookup tblDup ("") ("missing") = none := by
  refine ⟨?_, ?_, ?_⟩
  · have h := (lookup_first_match_spec tblDup ("catA") ("dup")).1 0
      (by decide) (by decide) (by decide)
    exact h.trans rfl
  · have h := (lookup_first_match_spec tblDup ("nosuch") ("wood")).2.1
      (by decide) 2 (by decide) (by decide) (by decide)
    exact h.trans rfl
  · exact (lookup_first_match_spec tblDup ("") ("missing")).2.2 (by decide)

/-- Deserializing a serialized layer recovers it exactly. -/
theorem deserializeLayer_roundtrip (l : LayerSpec) :
    deserializeLayer (serializeLayer l) = Except.ok l := by
  simp [deserializeLayer, serializeLayer, getField, asInt, asNum, asStr,
    Rat.den_intCast, Rat.num_intCast]

/-- Deserializing a serialized layer list recovers it exactly. -/
theorem deserializeLayers_roundtrip (ls : List LayerSpec) :
    deserializeLayers (ls.map serializeLayer) = Except.ok ls := by
  induction ls with
  | nil => rfl
  | cons l t ih => simp [deserializeLayers, deserializeLayer_roundtrip, ih]

/-- C7: the ProjectStore round-trip is lossless — for every project,
deserializing its serialized document returns exactly the project (`Rsi`,
`Rse`, the bridge ratio and the ordered layer sequence included). -/
theorem deserialize_serialize_roundtrip (p : Project) :
    deserialize (serialize p) = Except.ok p := by
  simp [deserialize, serialize, getField, asNum, asArr, deserializeLayers_roundtrip]

end Materials
